import Mathlib

/-!
Shallow embedding of the trading core of the Kalshi-Quant-TeleBot repository.

Source files embedded:
- src/src/trader.py : class Trader (_make_trade_decision, execute_trade)
- src/src/main.py   : main() scheduler loop

Conventions of the embedding:
- Python numbers (bankroll, prices) are modelled as exact rationals (ℚ);
  integer quantities as ℤ.  Python int(x) truncates toward zero and is
  modelled by pyInt below.
- The Python dict self.current_positions is modelled as an insertion-ordered
  association list with dict update semantics (dictSet / dictGet).
- MAX_POSITION_SIZE_PERCENTAGE is imported by trader.py from config.py, a
  file not present under src/; it is carried as a field of the Trader state,
  quantified over in the theorems (the configuration section of the spec
  constrains it to a fraction of bankroll per trade in [0,1]).
- External calls (logger.warning during position sizing, logger.info inside
  the try block, notifier.send_trade_notification, and the except-handler
  body) may raise in Python; the Env record injects an optional exception
  (its message) at each of those call sites.  All other log calls are
  modelled as infallible trace events.  Log lines are traced as LogEvent
  constructors (one per call site) rather than formatted strings.
-/

/-- Python int(x): truncation toward zero. -/
def pyInt (x : ℚ) : ℤ := if 0 ≤ x then ⌊x⌋ else ⌈x⌉

/-- Lookup in a Python-dict-like association list: d[k] if present. -/
def dictGet : List (String × ℤ) → String → Option ℤ
  | [], _ => none
  | (k', v') :: rest, k => if k' = k then some v' else dictGet rest k

/-- Python d.get(k, dflt). -/
def dictGetD (d : List (String × ℤ)) (k : String) (dflt : ℤ) : ℤ :=
  (dictGet d k).getD dflt

/-- Python d[k] = v: overwrite in place if the key exists, else append
(insertion order preserved, as for a Python dict). -/
def dictSet : List (String × ℤ) → String → ℤ → List (String × ℤ)
  | [], k, v => [(k, v)]
  | (k', v') :: rest, k, v =>
      if k' = k then (k, v) :: rest else (k', v') :: dictSet rest k v

/-- One market record of a snapshot, as consumed by _make_trade_decision:
`market.get('id')` and `market.get('current_price')` may each be absent. -/
structure Market where
  id : Option String
  current_price : Option ℚ
deriving DecidableEq

/-- The market_data dict: the 'markets' key may be absent (`none`). -/
structure MarketData where
  markets : Option (List Market)
deriving DecidableEq

/-- A trade decision dict as built by _make_trade_decision:
{'event_id', 'action', 'quantity', 'price'}. -/
structure TradeDecision where
  event_id : String
  action : String
  quantity : ℤ
  price : ℚ
deriving DecidableEq

/-- The Trader state: self.bankroll, the configured
MAX_POSITION_SIZE_PERCENTAGE, and self.current_positions. -/
structure Trader where
  bankroll : ℚ
  max_position_size_percentage : ℚ
  current_positions : List (String × ℤ)
deriving DecidableEq

/-- Trader._make_trade_decision (src/src/trader.py lines 18-30).
Python truthiness: `if market_data and 'markets' in market_data and
market_data['markets']` requires the dict, the key and a non-empty list;
`if event_id and current_price` requires both fields present with an id
that is not the empty string and a price that is not zero. -/
def Trader.make_trade_decision (market_data : Option MarketData) :
    Option TradeDecision :=
  match market_data with
  | none => none
  | some md =>
    match md.markets with
    | none => none
    | some [] => none
    | some (market :: _) =>
      match market.id, market.current_price with
      | some event_id, some current_price =>
          if event_id = "" ∨ current_price = 0 then none
          else some ⟨event_id, "buy", 1, current_price⟩
      | some _, none => none
      | none, _ => none

/-- Injected exceptions for the external calls of execute_trade.
A `some msg` means that call raises an exception with text msg. -/
structure Env where
  warnFail : Option String
  infoFail : Option String
  notifyTradeFail : Option String
  errorHandlerFail : Option String
deriving DecidableEq

/-- The all-succeeding environment (no external call raises). -/
def Env.ok : Env := ⟨none, none, none, none⟩

/-- Trace of the log calls of execute_trade, one constructor per call site. -/
inductive LogEvent where
  | noDecision
  | adjustWarn
  | zeroSkipWarn
  | execBuy
  | execSell
  | execError
deriving DecidableEq

/-- One notifier.send_trade_notification call:
"<Bought|Sold> <quantity> units of <event_id> at <price>.". -/
structure TradeNotif where
  bought : Bool
  quantity : ℤ
  event_id : String
  price : ℚ
deriving DecidableEq

/-- Observable outcome of one execute_trade call.  `escaped` is `some msg`
when an exception propagates out of execute_trade to the caller (Python
state mutations done before the raise persist in `trader`). -/
structure ExecResult where
  trader : Trader
  logs : List LogEvent
  tradeNotifs : List TradeNotif
  errorNotifs : List (String × String)
  escaped : Option String
deriving DecidableEq

/-- The except-handler of execute_trade: logger.error then
notifier.send_error_notification with the market id and exception text.
If the handler body itself raises (env.errorHandlerFail), that exception
propagates out of execute_trade. -/
def exceptHandler (t : Trader) (logs : List LogEvent) (event_id e : String)
    (env : Env) : ExecResult :=
  match env.errorHandlerFail with
  | some e2 => ⟨t, logs ++ [.execError], [], [], some e2⟩
  | none => ⟨t, logs ++ [.execError], [], [(event_id, e)], none⟩

/-- The try-block of execute_trade (src/src/trader.py lines 51-69) together
with its except-handler: the buy/sell branches (log, book mutation,
notification), the no-op stop-loss check, and the silent fall-through when
the action is neither 'buy' nor 'sell'.  Any exception raised inside is
routed to exceptHandler. -/
def tryBlock (t : Trader) (env : Env) (event_id action : String)
    (quantity : ℤ) (price : ℚ) (logs0 : List LogEvent) : ExecResult :=
  if action = "buy" then
    match env.infoFail with
    | some e => exceptHandler t logs0 event_id e env
    | none =>
      let t' : Trader :=
        { t with current_positions :=
            (dictSet t.current_positions event_id
              (dictGetD t.current_positions event_id 0 + quantity)) }
      match env.notifyTradeFail with
      | some e => exceptHandler t' (logs0 ++ [.execBuy]) event_id e env
      | none =>
          ⟨t', logs0 ++ [.execBuy], [⟨true, quantity, event_id, price⟩],
            [], none⟩
  else if action = "sell" then
    match env.infoFail with
    | some e => exceptHandler t logs0 event_id e env
    | none =>
      let t' : Trader :=
        { t with current_positions :=
            (dictSet t.current_positions event_id
              (dictGetD t.current_positions event_id 0 - quantity)) }
      match env.notifyTradeFail with
      | some e => exceptHandler t' (logs0 ++ [.execSell]) event_id e env
      | none =>
          ⟨t', logs0 ++ [.execSell], [⟨false, quantity, event_id, price⟩],
            [], none⟩
  else
    -- Neither branch runs; the stop-loss check that follows is `pass`.
    ⟨t, logs0, [], [], none⟩

/-- Trader.execute_trade (src/src/trader.py lines 32-73).  The position
sizing (max_trade_value computation, the adjustment with its
logger.warning calls, and the zero-quantity skip) happens BEFORE the try
block; an exception raised there propagates to the caller. -/
def Trader.execute_trade (t : Trader) (trade_decision : Option TradeDecision)
    (env : Env) : ExecResult :=
  match trade_decision with
  | none => ⟨t, [.noDecision], [], [], none⟩
  | some d =>
    let max_trade_value := t.bankroll * t.max_position_size_percentage
    if (d.quantity : ℚ) * d.price > max_trade_value then
      match env.warnFail with
      | some e => ⟨t, [], [], [], some e⟩
      | none =>
        let quantity := pyInt (max_trade_value / d.price)
        if quantity = 0 then
          ⟨t, [.adjustWarn, .zeroSkipWarn], [], [], none⟩
        else
          tryBlock t env d.event_id d.action quantity d.price [.adjustWarn]
    else
      tryBlock t env d.event_id d.action d.quantity d.price []

/-- Outcome of the main() scheduler loop of src/src/main.py. -/
structure LoopResult where
  cyclesStarted : Nat
  errorLogs : List String
  errorNotifs : List String
deriving DecidableEq

/-- The `while True` loop of main() (src/src/main.py lines 23-30), fuel-
bounded.  `cycles i` is the outcome of the i-th iteration body
(run_trading_strategy plus sleep): `.error e` when an exception escapes
that cycle.  The loop sits inside the single try; the except handler logs
the error, notifies it, and main() then returns — the loop is not
re-entered. -/
def mainRun (cycles : Nat → Except String Unit) : Nat → Nat → LoopResult
  | 0, i => ⟨i, [], []⟩
  | fuel + 1, i =>
    match cycles i with
    | .ok _ => mainRun cycles fuel (i + 1)
    | .error e => ⟨i + 1, [e], [e]⟩

/-! ## Helper lemmas about the position dict -/

theorem dictGet_dictSet (d : List (String × ℤ)) (k k' : String) (v : ℤ) :
    dictGet (dictSet d k v) k' = if k' = k then some v else dictGet d k' := by
  induction d with
  | nil =>
      by_cases h : k' = k <;> simp_all [dictSet, dictGet]
      exact fun h2 => h h2.symm
  | cons hd tl ih =>
      obtain ⟨k0, v0⟩ := hd
      by_cases h0 : k0 = k <;> by_cases h1 : k' = k <;>
        simp_all [dictSet, dictGet]
      have hne : ¬k = k' := fun h2 => h1 h2.symm
      simp [hne]

theorem dictGetD_dictSet_self (d : List (String × ℤ)) (k : String) (v w : ℤ) :
    dictGetD (dictSet d k v) k w = v := by
  simp [dictGetD, dictGet_dictSet]

theorem dictGet_dictSet_ne (d : List (String × ℤ)) (k k' : String) (v : ℤ)
    (h : k' ≠ k) : dictGet (dictSet d k v) k' = dictGet d k' := by
  rw [dictGet_dictSet, if_neg h]

theorem dictGet_dictSet_isSome (d : List (String × ℤ)) (k k' : String)
    (v : ℤ) (h : (dictGet d k').isSome) :
    (dictGet (dictSet d k v) k').isSome := by
  rw [dictGet_dictSet]
  by_cases h2 : k' = k <;> simp [h2, h]

/-! ## Claim theorems: DecisionEngine (_make_trade_decision) -/

/-- C10: every non-None proposal produced by _make_trade_decision has a
non-empty market id and a nonzero price (so executing such a proposal never
reaches the position-sizing division with a zero divisor); and a first
record whose id is the empty string, or whose current_price is 0, yields
None even though both fields are present. -/
theorem C10_decision_guards :
    (∀ md d, Trader.make_trade_decision md = some d →
      d.event_id ≠ "" ∧ d.price ≠ 0) ∧
    Trader.make_trade_decision (some ⟨some [⟨some "", some (1/2)⟩]⟩) = none ∧
    Trader.make_trade_decision (some ⟨some [⟨some "M", some 0⟩]⟩) = none := by
  refine ⟨?_, ?_, ?_⟩
  · intro md d h
    match md with
    | none => simp [Trader.make_trade_decision] at h
    | some ⟨none⟩ => simp [Trader.make_trade_decision] at h
    | some ⟨some []⟩ => simp [Trader.make_trade_decision] at h
    | some ⟨some (⟨none, cp⟩ :: ms)⟩ => simp [Trader.make_trade_decision] at h
    | some ⟨some (⟨some i, none⟩ :: ms)⟩ =>
        simp [Trader.make_trade_decision] at h
    | some ⟨some (⟨some i, some p⟩ :: ms)⟩ =>
        simp only [Trader.make_trade_decision] at h
        by_cases hi : i = ""
        · rw [if_pos (Or.inl hi)] at h; exact absurd h (by simp)
        · by_cases hp : p = 0
          · rw [if_pos (Or.inr hp)] at h; exact absurd h (by simp)
          · rw [if_neg (by push_neg; exact ⟨hi, hp⟩)] at h
            injection h with h2
            subst h2
            exact ⟨hi, hp⟩
  · simp [Trader.make_trade_decision]
  · simp [Trader.make_trade_decision]

/-- C10 witness: the theorem applied to the concrete snapshot whose first
record is {id: "M", current_price: 13/20}. -/
theorem C10_witness :
    ("M" : String) ≠ "" ∧ (13/20 : ℚ) ≠ 0 := by
  have h := C10_decision_guards.1
    (some ⟨some [⟨some "M", some (13/20)⟩]⟩) ⟨"M", "buy", 1, 13/20⟩
    (by simp [Trader.make_trade_decision])
  exact h

/-- C3 counterexample: a first market record that has an id but lacks a
price yields None, although the claim allows None only when the record
lacks both an id and a price. -/
theorem C3_counterexample :
    Trader.make_trade_decision (some ⟨some [⟨some "M", none⟩]⟩) = none ∧
    (⟨some "M", none⟩ : Market).id = some "M" := by
  exact ⟨by simp [Trader.make_trade_decision], rfl⟩

/-- C3 (amended): the decision function returns None if the snapshot is
absent or contains no markets; otherwise it inspects only the first market
record and returns None exactly when that record lacks an id, its id is the
empty string, it lacks a price, or its price is zero; in every other case
it returns a Buy proposal with quantity 1 at that record's current price. -/
theorem C3_decision_behavior :
    (Trader.make_trade_decision none = none) ∧
    (∀ x, x.markets = none → Trader.make_trade_decision (some x) = none) ∧
    (∀ x, x.markets = some [] → Trader.make_trade_decision (some x) = none) ∧
    (∀ x m ms, x.markets = some (m :: ms) →
      (Trader.make_trade_decision (some x) = none ↔
        m.id = none ∨ m.id = some "" ∨ m.current_price = none ∨
          m.current_price = some 0) ∧
      (∀ i p, m.id = some i → m.current_price = some p → i ≠ "" → p ≠ 0 →
        Trader.make_trade_decision (some x) = some ⟨i, "buy", 1, p⟩)) := by
  refine ⟨rfl, ?_, ?_, ?_⟩
  · intro x hx
    obtain ⟨mk⟩ := x
    simp only at hx
    subst hx
    rfl
  · intro x hx
    obtain ⟨mk⟩ := x
    simp only at hx
    subst hx
    rfl
  · intro x m ms hx
    obtain ⟨mk⟩ := x
    simp only at hx
    subst hx
    obtain ⟨oid, op⟩ := m
    constructor
    · match oid, op with
      | none, op => simp [Trader.make_trade_decision]
      | some i, none => simp [Trader.make_trade_decision]
      | some i, some p =>
          by_cases hi : i = ""
          · simp [Trader.make_trade_decision, hi]
          · by_cases hp : p = 0
            · simp [Trader.make_trade_decision, hi, hp]
            · simp [Trader.make_trade_decision, hi, hp]
    · intro i p hid hp hi hp0
      simp only at hid hp
      subst hid
      subst hp
      simp [Trader.make_trade_decision, hi, hp0]

/-- C3 witness: the amended theorem applied to a concrete snapshot whose
first record is {id: "M", current_price: 13/20}. -/
theorem C3_witness :
    Trader.make_trade_decision (some ⟨some [⟨some "M", some (13/20)⟩]⟩)
      = some ⟨"M", "buy", 1, 13/20⟩ := by
  exact (C3_decision_behavior.2.2.2 ⟨some [⟨some "M", some (13/20)⟩]⟩
    ⟨some "M", some (13/20)⟩ [] rfl).2 "M" (13/20) rfl rfl
    (by decide) (by norm_num)

/-! ## Helper lemmas about tryBlock and execute_trade branches -/

theorem tryBlock_other (t : Trader) (env : Env) (eid act : String)
    (q : ℤ) (p : ℚ) (logs0 : List LogEvent)
    (hb : act ≠ "buy") (hs : act ≠ "sell") :
    tryBlock t env eid act q p logs0 = ⟨t, logs0, [], [], none⟩ := by
  simp [tryBlock, hb, hs]

theorem tryBlock_ok_buy (t : Trader) (env : Env) (eid : String)
    (q : ℤ) (p : ℚ) (logs0 : List LogEvent)
    (h1 : env.infoFail = none) (h2 : env.notifyTradeFail = none) :
    tryBlock t env eid "buy" q p logs0 =
      ⟨{ t with current_positions :=
          (dictSet t.current_positions eid
            (dictGetD t.current_positions eid 0 + q)) },
        logs0 ++ [.execBuy], [⟨true, q, eid, p⟩], [], none⟩ := by
  simp [tryBlock, h1, h2]

theorem tryBlock_ok_sell (t : Trader) (env : Env) (eid : String)
    (q : ℤ) (p : ℚ) (logs0 : List LogEvent)
    (h1 : env.infoFail = none) (h2 : env.notifyTradeFail = none) :
    tryBlock t env eid "sell" q p logs0 =
      ⟨{ t with current_positions :=
          (dictSet t.current_positions eid
            (dictGetD t.current_positions eid 0 - q)) },
        logs0 ++ [.execSell], [⟨false, q, eid, p⟩], [], none⟩ := by
  simp [tryBlock, h1, h2]

theorem tryBlock_positions (t : Trader) (env : Env) (eid act : String)
    (q : ℤ) (p : ℚ) (logs0 : List LogEvent) :
    (tryBlock t env eid act q p logs0).trader.current_positions
        = t.current_positions ∨
    (tryBlock t env eid act q p logs0).trader.current_positions
        = dictSet t.current_positions eid
            (dictGetD t.current_positions eid 0 + q) ∨
    (tryBlock t env eid act q p logs0).trader.current_positions
        = dictSet t.current_positions eid
            (dictGetD t.current_positions eid 0 - q) := by
  by_cases hb : act = "buy" <;> by_cases hs : act = "sell" <;>
    cases hif : env.infoFail <;> cases hnf : env.notifyTradeFail <;>
    cases hef : env.errorHandlerFail <;>
    simp [tryBlock, exceptHandler, hb, hs, hif, hnf, hef]

theorem tryBlock_bankroll (t : Trader) (env : Env) (eid act : String)
    (q : ℤ) (p : ℚ) (logs0 : List LogEvent) :
    (tryBlock t env eid act q p logs0).trader.bankroll = t.bankroll := by
  by_cases hb : act = "buy" <;> by_cases hs : act = "sell" <;>
    cases hif : env.infoFail <;> cases hnf : env.notifyTradeFail <;>
    cases hef : env.errorHandlerFail <;>
    simp [tryBlock, exceptHandler, hb, hs, hif, hnf, hef]

theorem tryBlock_escaped (t : Trader) (env : Env) (eid act : String)
    (q : ℤ) (p : ℚ) (logs0 : List LogEvent)
    (hef : env.errorHandlerFail = none) :
    (tryBlock t env eid act q p logs0).escaped = none := by
  by_cases hb : act = "buy" <;> by_cases hs : act = "sell" <;>
    cases hif : env.infoFail <;> cases hnf : env.notifyTradeFail <;>
    simp [tryBlock, exceptHandler, hb, hs, hif, hnf, hef]

theorem tryBlock_buy_mutates (t : Trader) (env : Env) (eid : String)
    (q : ℤ) (p : ℚ) (logs0 : List LogEvent)
    (h1 : env.infoFail = none) :
    (tryBlock t env eid "buy" q p logs0).trader.current_positions
      = dictSet t.current_positions eid
          (dictGetD t.current_positions eid 0 + q) := by
  cases hnf : env.notifyTradeFail <;> cases hef : env.errorHandlerFail <;>
    simp [tryBlock, exceptHandler, h1, hnf, hef]

theorem tryBlock_sell_mutates (t : Trader) (env : Env) (eid : String)
    (q : ℤ) (p : ℚ) (logs0 : List LogEvent)
    (h1 : env.infoFail = none) :
    (tryBlock t env eid "sell" q p logs0).trader.current_positions
      = dictSet t.current_positions eid
          (dictGetD t.current_positions eid 0 - q) := by
  cases hnf : env.notifyTradeFail <;> cases hef : env.errorHandlerFail <;>
    simp [tryBlock, exceptHandler, h1, hnf, hef]

theorem execute_none (t : Trader) (env : Env) :
    Trader.execute_trade t none env = ⟨t, [.noDecision], [], [], none⟩ := rfl

theorem execute_adjust_warnFail (t : Trader) (d : TradeDecision) (env : Env)
    (e : String)
    (hgt : (d.quantity : ℚ) * d.price >
      t.bankroll * t.max_position_size_percentage)
    (hw : env.warnFail = some e) :
    Trader.execute_trade t (some d) env = ⟨t, [], [], [], some e⟩ := by
  simp only [Trader.execute_trade]
  rw [if_pos hgt, hw]

theorem execute_adjust_zero (t : Trader) (d : TradeDecision) (env : Env)
    (hgt : (d.quantity : ℚ) * d.price >
      t.bankroll * t.max_position_size_percentage)
    (hw : env.warnFail = none)
    (hq : pyInt (t.bankroll * t.max_position_size_percentage / d.price) = 0) :
    Trader.execute_trade t (some d) env
      = ⟨t, [.adjustWarn, .zeroSkipWarn], [], [], none⟩ := by
  simp only [Trader.execute_trade]
  rw [if_pos hgt, hw]
  simp only
  rw [if_pos hq]

theorem execute_adjust_go (t : Trader) (d : TradeDecision) (env : Env)
    (hgt : (d.quantity : ℚ) * d.price >
      t.bankroll * t.max_position_size_percentage)
    (hw : env.warnFail = none)
    (hq : pyInt (t.bankroll * t.max_position_size_percentage / d.price) ≠ 0) :
    Trader.execute_trade t (some d) env
      = tryBlock t env d.event_id d.action
          (pyInt (t.bankroll * t.max_position_size_percentage / d.price))
          d.price [.adjustWarn] := by
  simp only [Trader.execute_trade]
  rw [if_pos hgt, hw]
  simp only
  rw [if_neg hq]

theorem execute_noadjust (t : Trader) (d : TradeDecision) (env : Env)
    (hle : ¬((d.quantity : ℚ) * d.price >
      t.bankroll * t.max_position_size_percentage)) :
    Trader.execute_trade t (some d) env
      = tryBlock t env d.event_id d.action d.quantity d.price [] := by
  simp only [Trader.execute_trade]
  rw [if_neg hle]

theorem pyInt_of_nonneg (x : ℚ) (h : 0 ≤ x) : pyInt x = ⌊x⌋ := if_pos h

theorem pyInt_nonneg (x : ℚ) (h : 0 ≤ x) : 0 ≤ pyInt x := by
  rw [pyInt_of_nonneg x h]
  exact Int.floor_nonneg.mpr h

theorem pyInt_div_mul_le (mv p : ℚ) (hp : 0 < p) (hmv : 0 ≤ mv) :
    (pyInt (mv / p) : ℚ) * p ≤ mv := by
  rw [pyInt_of_nonneg _ (by positivity)]
  calc (⌊mv / p⌋ : ℚ) * p ≤ (mv / p) * p :=
        mul_le_mul_of_nonneg_right (Int.floor_le _) hp.le
    _ = mv := div_mul_cancel₀ mv (ne_of_gt hp)

theorem execute_positions (t : Trader) (d : TradeDecision) (env : Env) :
    (Trader.execute_trade t (some d) env).trader.current_positions
        = t.current_positions ∨
    ∃ v : ℤ, (Trader.execute_trade t (some d) env).trader.current_positions
        = dictSet t.current_positions d.event_id v := by
  by_cases hgt : (d.quantity : ℚ) * d.price >
      t.bankroll * t.max_position_size_percentage
  · cases hw : env.warnFail with
    | some e => rw [execute_adjust_warnFail t d env e hgt hw]; exact Or.inl rfl
    | none =>
        by_cases hq :
          pyInt (t.bankroll * t.max_position_size_percentage / d.price) = 0
        · rw [execute_adjust_zero t d env hgt hw hq]; exact Or.inl rfl
        · rw [execute_adjust_go t d env hgt hw hq]
          rcases tryBlock_positions t env d.event_id d.action _ d.price
            [.adjustWarn] with h | h | h
          · exact Or.inl h
          · exact Or.inr ⟨_, h⟩
          · exact Or.inr ⟨_, h⟩
  · rw [execute_noadjust t d env hgt]
    rcases tryBlock_positions t env d.event_id d.action d.quantity d.price []
      with h | h | h
    · exact Or.inl h
    · exact Or.inr ⟨_, h⟩
    · exact Or.inr ⟨_, h⟩

theorem execute_bankroll (t : Trader) (dec : Option TradeDecision)
    (env : Env) :
    (Trader.execute_trade t dec env).trader.bankroll = t.bankroll := by
  cases dec with
  | none => rw [execute_none]
  | some d =>
      by_cases hgt : (d.quantity : ℚ) * d.price >
          t.bankroll * t.max_position_size_percentage
      · cases hw : env.warnFail with
        | some e => rw [execute_adjust_warnFail t d env e hgt hw]
        | none =>
            by_cases hq :
              pyInt (t.bankroll * t.max_position_size_percentage / d.price) = 0
            · rw [execute_adjust_zero t d env hgt hw hq]
            · rw [execute_adjust_go t d env hgt hw hq]
              exact tryBlock_bankroll ..
      · rw [execute_noadjust t d env hgt]
        exact tryBlock_bankroll ..

/-! ## Claim theorems: execute_trade -/

/-- C9: frame of execute_trade — every call (any decision, any outcome of
the external calls) leaves the bankroll unchanged, never removes a key
from the position book, changes no position-book entry other than the one
for the proposal's own market id, and is a complete no-op on the trader
for a None decision. -/
theorem C9_frame (t : Trader) (dec : Option TradeDecision) (env : Env) :
    (Trader.execute_trade t dec env).trader.bankroll = t.bankroll ∧
    (∀ k, (dictGet t.current_positions k).isSome →
      (dictGet (Trader.execute_trade t dec env).trader.current_positions
        k).isSome) ∧
    (∀ k d, dec = some d → k ≠ d.event_id →
      dictGet (Trader.execute_trade t dec env).trader.current_positions k
        = dictGet t.current_positions k) ∧
    (dec = none → (Trader.execute_trade t dec env).trader = t) := by
  refine ⟨execute_bankroll t dec env, ?_, ?_, ?_⟩
  · intro k hk
    cases dec with
    | none => rw [execute_none]; exact hk
    | some d =>
        rcases execute_positions t d env with h | ⟨v, h⟩
        · rw [h]; exact hk
        · rw [h]; exact dictGet_dictSet_isSome _ _ _ _ hk
  · intro k d hdec hne
    subst hdec
    rcases execute_positions t d env with h | ⟨v, h⟩
    · rw [h]
    · rw [h]; exact dictGet_dictSet_ne _ _ _ _ hne
  · intro hdec
    subst hdec
    rw [execute_none]

/-- C9 witness: the frame theorem applied to a concrete trader holding a
position in market "A" while a Buy on market "M" executes. -/
theorem C9_witness :
    (Trader.execute_trade ⟨1000, 1/10, [("A", 5)]⟩
        (some ⟨"M", "buy", 2, 1/2⟩) Env.ok).trader.bankroll = 1000 ∧
    (dictGet (Trader.execute_trade ⟨1000, 1/10, [("A", 5)]⟩
        (some ⟨"M", "buy", 2, 1/2⟩) Env.ok).trader.current_positions
      "A").isSome ∧
    dictGet (Trader.execute_trade ⟨1000, 1/10, [("A", 5)]⟩
        (some ⟨"M", "buy", 2, 1/2⟩) Env.ok).trader.current_positions "A"
      = dictGet ([("A", 5)] : List (String × ℤ)) "A" := by
  have h := C9_frame ⟨1000, 1/10, [("A", 5)]⟩ (some ⟨"M", "buy", 2, 1/2⟩)
    Env.ok
  refine ⟨h.1, ?_, ?_⟩
  · exact h.2.1 "A" (by simp [dictGet])
  · exact h.2.2.1 "A" ⟨"M", "buy", 2, 1/2⟩ rfl (by decide)

/-- C5: for bankroll B>0, fraction f>0, price p>0 and an oversized request
(q*p > B*f), if the adjusted quantity int(B*f/p) is non-positive (under
these preconditions, equivalently zero), execute_trade leaves the entire
trader state — in particular the position book — unchanged and sends no
trade notification, whatever the external calls do. -/
theorem C5_zero_adjustment_skip (B f p : ℚ) (q : ℤ) (eid act : String)
    (b : List (String × ℤ)) (env : Env)
    (hB : 0 < B) (hf : 0 < f) (hp : 0 < p)
    (hgt : (q : ℚ) * p > B * f)
    (hz : pyInt (B * f / p) ≤ 0) :
    (Trader.execute_trade ⟨B, f, b⟩ (some ⟨eid, act, q, p⟩) env).trader
        = ⟨B, f, b⟩ ∧
    (Trader.execute_trade ⟨B, f, b⟩ (some ⟨eid, act, q, p⟩) env).tradeNotifs
        = [] := by
  have hq0 : pyInt (B * f / p) = 0 :=
    le_antisymm hz (pyInt_nonneg _ (by positivity))
  cases hw : env.warnFail with
  | some e =>
      rw [execute_adjust_warnFail ⟨B, f, b⟩ ⟨eid, act, q, p⟩ env e hgt hw]
      exact ⟨rfl, rfl⟩
  | none =>
      rw [execute_adjust_zero ⟨B, f, b⟩ ⟨eid, act, q, p⟩ env hgt hw hq0]
      exact ⟨rfl, rfl⟩

/-- C5 witness: scenario C of the spec — B=1000, f=1/10, price 200,
quantity 1: adjusted quantity int(100/200)=0, trade skipped. -/
theorem C5_witness :
    (Trader.execute_trade ⟨1000, 1/10, []⟩ (some ⟨"M", "buy", 1, 200⟩)
        Env.ok).trader = ⟨1000, 1/10, []⟩ ∧
    (Trader.execute_trade ⟨1000, 1/10, []⟩ (some ⟨"M", "buy", 1, 200⟩)
        Env.ok).tradeNotifs = [] := by
  exact C5_zero_adjustment_skip 1000 (1/10) 200 1 "M" "buy" [] Env.ok
    (by norm_num) (by norm_num) (by norm_num) (by norm_num)
    (by unfold pyInt; norm_num)

/-- C8 counterexample: a proposal with side "hold" produces an execution
outcome identical in every observable respect (trader state, log trace,
trade notifications, error notifications, raised exception) to doing
nothing at all — nothing identifies the trade as rejected for an invalid
side. -/
theorem C8_counterexample :
    Trader.execute_trade ⟨1000, 1/10, []⟩ (some ⟨"M", "hold", 1, 1/2⟩)
        Env.ok
      = ⟨⟨1000, 1/10, []⟩, [], [], [], none⟩ := by
  rw [execute_noadjust _ _ _ (by norm_num)]
  rw [tryBlock_other _ _ _ _ _ _ _ (by decide) (by decide)]

/-- C8 (amended): for every proposal whose side is neither "buy" nor
"sell", execute_trade leaves the trader (hence the position book)
unchanged, sends no trade notification and no error notification; the
invalid side is silently ignored with no explicit rejection result. -/
theorem C8_invalid_side (t : Trader) (d : TradeDecision) (env : Env)
    (hb : d.action ≠ "buy") (hs : d.action ≠ "sell") :
    (Trader.execute_trade t (some d) env).trader = t ∧
    (Trader.execute_trade t (some d) env).tradeNotifs = [] ∧
    (Trader.execute_trade t (some d) env).errorNotifs = [] := by
  by_cases hgt : (d.quantity : ℚ) * d.price >
      t.bankroll * t.max_position_size_percentage
  · cases hw : env.warnFail with
    | some e =>
        rw [execute_adjust_warnFail t d env e hgt hw]
        exact ⟨rfl, rfl, rfl⟩
    | none =>
        by_cases hq :
          pyInt (t.bankroll * t.max_position_size_percentage / d.price) = 0
        · rw [execute_adjust_zero t d env hgt hw hq]
          exact ⟨rfl, rfl, rfl⟩
        · rw [execute_adjust_go t d env hgt hw hq]
          rw [tryBlock_other _ _ _ _ _ _ _ hb hs]
          exact ⟨rfl, rfl, rfl⟩
  · rw [execute_noadjust t d env hgt]
    rw [tryBlock_other _ _ _ _ _ _ _ hb hs]
    exact ⟨rfl, rfl, rfl⟩

/-- C8 witness: the amended theorem applied to a concrete "hold"
proposal. -/
theorem C8_witness :
    (Trader.execute_trade ⟨1000, 1/10, []⟩ (some ⟨"M", "hold", 1, 1/2⟩)
        Env.ok).trader = ⟨1000, 1/10, []⟩ ∧
    (Trader.execute_trade ⟨1000, 1/10, []⟩ (some ⟨"M", "hold", 1, 1/2⟩)
        Env.ok).tradeNotifs = [] ∧
    (Trader.execute_trade ⟨1000, 1/10, []⟩ (some ⟨"M", "hold", 1, 1/2⟩)
        Env.ok).errorNotifs = [] := by
  exact C8_invalid_side ⟨1000, 1/10, []⟩ ⟨"M", "hold", 1, 1/2⟩ Env.ok
    (by decide) (by decide)

/-- C4 counterexample: a failure raised during position sizing (the
logger.warning call of the adjustment step, which sits before the try
block in the source) is NOT caught: it propagates out of execute_trade. -/
theorem C4_counterexample :
    Trader.execute_trade ⟨1000, 1/10, []⟩ (some ⟨"M", "buy", 300, 1/2⟩)
        ⟨some "boom", none, none, none⟩
      = ⟨⟨1000, 1/10, []⟩, [], [], [], some "boom"⟩ := by
  exact execute_adjust_warnFail _ _ _ _ (by norm_num) rfl

/-- C4 (amended): failures raised inside the try block — during book
mutation or trade notification (steps 4-5) — are caught inside
execute_trade and do not propagate (provided the position-sizing calls
before the try block and the except-handler body itself do not raise);
and if the failure occurs after the book mutation completed (e.g. the
trade notification raises), the mutation persists unchanged — for Buy and
for Sell proposals alike.  Failures during position sizing (steps 2-3)
are NOT caught. -/
theorem C4_error_containment (t : Trader) (d : TradeDecision) (env : Env) :
    (env.warnFail = none → env.errorHandlerFail = none →
      (Trader.execute_trade t (some d) env).escaped = none) ∧
    (env.warnFail = none → env.infoFail = none → d.action = "buy" →
      ((d.quantity : ℚ) * d.price >
          t.bankroll * t.max_position_size_percentage →
        pyInt (t.bankroll * t.max_position_size_percentage / d.price) ≠ 0) →
      (Trader.execute_trade t (some d) env).trader.current_positions
        = dictSet t.current_positions d.event_id
            (dictGetD t.current_positions d.event_id 0 +
              (if (d.quantity : ℚ) * d.price >
                  t.bankroll * t.max_position_size_percentage
               then pyInt
                  (t.bankroll * t.max_position_size_percentage / d.price)
               else d.quantity))) ∧
    (env.warnFail = none → env.infoFail = none → d.action = "sell" →
      ((d.quantity : ℚ) * d.price >
          t.bankroll * t.max_position_size_percentage →
        pyInt (t.bankroll * t.max_position_size_percentage / d.price) ≠ 0) →
      (Trader.execute_trade t (some d) env).trader.current_positions
        = dictSet t.current_positions d.event_id
            (dictGetD t.current_positions d.event_id 0 -
              (if (d.quantity : ℚ) * d.price >
                  t.bankroll * t.max_position_size_percentage
               then pyInt
                  (t.bankroll * t.max_position_size_percentage / d.price)
               else d.quantity))) := by
  refine ⟨?_, ?_, ?_⟩
  · intro hw hef
    by_cases hgt : (d.quantity : ℚ) * d.price >
        t.bankroll * t.max_position_size_percentage
    · by_cases hq :
        pyInt (t.bankroll * t.max_position_size_percentage / d.price) = 0
      · rw [execute_adjust_zero t d env hgt hw hq]
      · rw [execute_adjust_go t d env hgt hw hq]
        exact tryBlock_escaped _ _ _ _ _ _ _ hef
    · rw [execute_noadjust t d env hgt]
      exact tryBlock_escaped _ _ _ _ _ _ _ hef
  · intro hw hif hbuy hq
    by_cases hgt : (d.quantity : ℚ) * d.price >
        t.bankroll * t.max_position_size_percentage
    · rw [execute_adjust_go t d env hgt hw (hq hgt), hbuy,
        tryBlock_buy_mutates t env d.event_id _ d.price _ hif, if_pos hgt]
    · rw [execute_noadjust t d env hgt, hbuy,
        tryBlock_buy_mutates t env d.event_id _ d.price _ hif, if_neg hgt]
  · intro hw hif hsell hq
    by_cases hgt : (d.quantity : ℚ) * d.price >
        t.bankroll * t.max_position_size_percentage
    · rw [execute_adjust_go t d env hgt hw (hq hgt), hsell,
        tryBlock_sell_mutates t env d.event_id _ d.price _ hif, if_pos hgt]
    · rw [execute_noadjust t d env hgt, hsell,
        tryBlock_sell_mutates t env d.event_id _ d.price _ hif, if_neg hgt]

/-- C4 witness: a Buy and a Sell whose trade notification raises — the
exception is caught (nothing escapes) and the completed book mutation
persists in both cases. -/
theorem C4_witness :
    (Trader.execute_trade ⟨1000, 1/10, []⟩ (some ⟨"M", "buy", 200, 1/2⟩)
        ⟨none, none, some "netfail", none⟩).escaped = none ∧
    (Trader.execute_trade ⟨1000, 1/10, []⟩ (some ⟨"M", "buy", 200, 1/2⟩)
        ⟨none, none, some "netfail", none⟩).trader.current_positions
      = [("M", 200)] ∧
    (Trader.execute_trade ⟨1000, 1/10, [("M", 200)]⟩
        (some ⟨"M", "sell", 200, 1/2⟩)
        ⟨none, none, some "netfail", none⟩).trader.current_positions
      = [("M", 0)] := by
  have h := C4_error_containment ⟨1000, 1/10, []⟩ ⟨"M", "buy", 200, 1/2⟩
    ⟨none, none, some "netfail", none⟩
  have hs := C4_error_containment ⟨1000, 1/10, [("M", 200)]⟩
    ⟨"M", "sell", 200, 1/2⟩ ⟨none, none, some "netfail", none⟩
  refine ⟨h.1 rfl rfl, ?_, ?_⟩
  · have h2 := h.2.1 rfl rfl rfl (fun hgt => absurd hgt (by norm_num))
    rw [h2]
    norm_num [dictSet, dictGetD, dictGet]
  · have h3 := hs.2.2 rfl rfl rfl (fun hgt => absurd hgt (by norm_num))
    rw [h3]
    norm_num [dictSet, dictGetD, dictGet]

/-- C1 counterexample: B=1000, f=1/10, p=200, q=1 — q*p > B*f holds and
floor(B*f/p) = 0, yet execute_trade books nothing at all: the position
book gains no entry and no trade notification is sent, rather than a
trade with quantity floor(B*f/p) being booked. -/
theorem C1_counterexample :
    (1 : ℚ) * 200 > 1000 * (1/10) ∧
    pyInt ((1000 * (1/10) : ℚ) / 200) = 0 ∧
    Trader.execute_trade ⟨1000, 1/10, []⟩ (some ⟨"M", "buy", 1, 200⟩) Env.ok
      = ⟨⟨1000, 1/10, []⟩, [.adjustWarn, .zeroSkipWarn], [], [], none⟩ := by
  refine ⟨by norm_num, by unfold pyInt; norm_num, ?_⟩
  exact execute_adjust_zero _ _ _ (by norm_num) rfl
    (by unfold pyInt; norm_num)

/-- C1 (amended): for bankroll B>0, fraction f∈(0,1], price p>0 and
requested quantity q, when q*p > B*f and floor(B*f/p) is nonzero,
execute_trade books the trade with quantity floor(B*f/p) (when the floor
is zero the trade is skipped entirely and nothing is booked); otherwise —
in particular when q*p equals B*f exactly — it books the trade with the
original quantity q.  Stated for both Buy and Sell sides, with the booked
quantity read off both the position delta and the trade notification. -/
theorem C1_position_sizing (B f p : ℚ) (q : ℤ) (eid : String)
    (b : List (String × ℤ))
    (hB : 0 < B) (hf : 0 < f) (hf1 : f ≤ 1) (hp : 0 < p) :
    ((q : ℚ) * p > B * f → pyInt (B * f / p) ≠ 0 →
      ((Trader.execute_trade ⟨B, f, b⟩ (some ⟨eid, "buy", q, p⟩)
            Env.ok).trader.current_positions
          = dictSet b eid (dictGetD b eid 0 + pyInt (B * f / p)) ∧
        (Trader.execute_trade ⟨B, f, b⟩ (some ⟨eid, "buy", q, p⟩)
            Env.ok).tradeNotifs = [⟨true, pyInt (B * f / p), eid, p⟩]) ∧
      ((Trader.execute_trade ⟨B, f, b⟩ (some ⟨eid, "sell", q, p⟩)
            Env.ok).trader.current_positions
          = dictSet b eid (dictGetD b eid 0 - pyInt (B * f / p)) ∧
        (Trader.execute_trade ⟨B, f, b⟩ (some ⟨eid, "sell", q, p⟩)
            Env.ok).tradeNotifs = [⟨false, pyInt (B * f / p), eid, p⟩])) ∧
    (¬((q : ℚ) * p > B * f) →
      ((Trader.execute_trade ⟨B, f, b⟩ (some ⟨eid, "buy", q, p⟩)
            Env.ok).trader.current_positions
          = dictSet b eid (dictGetD b eid 0 + q) ∧
        (Trader.execute_trade ⟨B, f, b⟩ (some ⟨eid, "buy", q, p⟩)
            Env.ok).tradeNotifs = [⟨true, q, eid, p⟩]) ∧
      ((Trader.execute_trade ⟨B, f, b⟩ (some ⟨eid, "sell", q, p⟩)
            Env.ok).trader.current_positions
          = dictSet b eid (dictGetD b eid 0 - q) ∧
        (Trader.execute_trade ⟨B, f, b⟩ (some ⟨eid, "sell", q, p⟩)
            Env.ok).tradeNotifs = [⟨false, q, eid, p⟩])) := by
  constructor
  · intro hgt hq
    constructor
    · rw [execute_adjust_go ⟨B, f, b⟩ ⟨eid, "buy", q, p⟩ Env.ok hgt rfl hq]
      rw [tryBlock_ok_buy _ _ _ _ _ _ rfl rfl]
      exact ⟨rfl, rfl⟩
    · rw [execute_adjust_go ⟨B, f, b⟩ ⟨eid, "sell", q, p⟩ Env.ok hgt rfl hq]
      rw [tryBlock_ok_sell _ _ _ _ _ _ rfl rfl]
      exact ⟨rfl, rfl⟩
  · intro hle
    constructor
    · rw [execute_noadjust ⟨B, f, b⟩ ⟨eid, "buy", q, p⟩ Env.ok hle]
      rw [tryBlock_ok_buy _ _ _ _ _ _ rfl rfl]
      exact ⟨rfl, rfl⟩
    · rw [execute_noadjust ⟨B, f, b⟩ ⟨eid, "sell", q, p⟩ Env.ok hle]
      rw [tryBlock_ok_sell _ _ _ _ _ _ rfl rfl]
      exact ⟨rfl, rfl⟩

/-- C1 witness: scenario A of the spec — B=1000, f=1/10, Buy 200 at 1/2
(value 100 = max exactly, so no adjustment): books 200 and notifies. -/
theorem C1_witness :
    (Trader.execute_trade ⟨1000, 1/10, []⟩ (some ⟨"M", "buy", 200, 1/2⟩)
        Env.ok).trader.current_positions = [("M", 200)] ∧
    (Trader.execute_trade ⟨1000, 1/10, []⟩ (some ⟨"M", "buy", 200, 1/2⟩)
        Env.ok).tradeNotifs = [⟨true, 200, "M", 1/2⟩] := by
  have h := (C1_position_sizing 1000 (1/10) (1/2) 200 "M" []
    (by norm_num) (by norm_num) (by norm_num) (by norm_num)).2
    (by norm_num)
  obtain ⟨⟨h1, h2⟩, h3⟩ := h
  rw [h1, h2]
  norm_num [dictSet, dictGetD, dictGet]

/-- C2: invariant — for bankroll B>0, configured fraction f∈[0,1], price
p>0 and requested quantity q>0, whatever side the proposal has and
whatever the external calls do, the absolute change execute_trade makes to
the proposal's position entry, valued at the trade price, never exceeds
bankroll * MAX_POSITION_SIZE_PERCENTAGE: oversized proposals are
down-sized (or dropped) before booking. -/
theorem C2_value_invariant (B f p : ℚ) (q : ℤ) (eid act : String)
    (b : List (String × ℤ)) (env : Env)
    (hB : 0 < B) (hf0 : 0 ≤ f) (hf1 : f ≤ 1) (hp : 0 < p) (hq : 0 < q) :
    |((dictGetD (Trader.execute_trade ⟨B, f, b⟩ (some ⟨eid, act, q, p⟩)
          env).trader.current_positions eid 0
        - dictGetD b eid 0 : ℤ) : ℚ)| * p ≤ B * f := by
  have hBf : 0 ≤ B * f := by positivity
  have key : ∀ (qx : ℤ) (logs0 : List LogEvent), 0 ≤ qx →
      (qx : ℚ) * p ≤ B * f →
      |((dictGetD (tryBlock ⟨B, f, b⟩ env eid act qx p
            logs0).trader.current_positions eid 0
          - dictGetD b eid 0 : ℤ) : ℚ)| * p ≤ B * f := by
    intro qx logs0 hqx hqxp
    rcases tryBlock_positions ⟨B, f, b⟩ env eid act qx p logs0
      with h | h | h <;> rw [h]
    · have hz : dictGetD (⟨B, f, b⟩ : Trader).current_positions eid 0
          - dictGetD b eid 0 = 0 := sub_self _
      rw [hz]
      simpa using hBf
    · rw [dictGetD_dictSet_self]
      have hz : dictGetD b eid 0 + qx - dictGetD b eid 0 = qx := by ring
      rw [hz, abs_of_nonneg (by exact_mod_cast hqx : (0:ℚ) ≤ (qx : ℚ))]
      exact hqxp
    · rw [dictGetD_dictSet_self]
      have hz : dictGetD b eid 0 - qx - dictGetD b eid 0 = -qx := by ring
      rw [hz]
      push_cast
      rw [abs_neg, abs_of_nonneg (by exact_mod_cast hqx : (0:ℚ) ≤ (qx : ℚ))]
      exact hqxp
  by_cases hgt : (q : ℚ) * p > B * f
  · cases hw : env.warnFail with
    | some e =>
        rw [execute_adjust_warnFail ⟨B, f, b⟩ ⟨eid, act, q, p⟩ env e hgt hw]
        simpa using hBf
    | none =>
        by_cases hq0 : pyInt (B * f / p) = 0
        · rw [execute_adjust_zero ⟨B, f, b⟩ ⟨eid, act, q, p⟩ env hgt hw hq0]
          simpa using hBf
        · rw [execute_adjust_go ⟨B, f, b⟩ ⟨eid, act, q, p⟩ env hgt hw hq0]
          exact key _ _ (pyInt_nonneg _ (by positivity))
            (pyInt_div_mul_le (B * f) p hp hBf)
  · rw [execute_noadjust ⟨B, f, b⟩ ⟨eid, act, q, p⟩ env hgt]
    exact key q [] hq.le (not_lt.mp hgt)

/-- C2 witness: scenario B of the spec — B=1000, f=1/10, Buy 300 at 1/2 is
down-sized; the booked position change stays within the limit. -/
theorem C2_witness :
    |((dictGetD (Trader.execute_trade ⟨1000, 1/10, []⟩
          (some ⟨"M", "buy", 300, 1/2⟩) Env.ok).trader.current_positions
        "M" 0 - dictGetD [] "M" 0 : ℤ) : ℚ)| * (1/2) ≤ 1000 * (1/10) :=
  C2_value_invariant 1000 (1/10) (1/2) 300 "M" "buy" [] Env.ok
    (by norm_num) (by norm_num) (by norm_num) (by norm_num) (by norm_num)

/-- C7: for a flat market (entry absent or zero) and a quantity k>0 within
the sizing limit (k*p ≤ B*f), executing a Buy of k sets the market's
position to +k, and a subsequent Sell of k at the same price returns it
to 0: Buy adds the quantity, Sell subtracts it. -/
theorem C7_buy_sell_roundtrip (B f p : ℚ) (k : ℤ) (eid : String)
    (b : List (String × ℤ))
    (hk : 0 < k) (hlim : (k : ℚ) * p ≤ B * f)
    (hflat : dictGetD b eid 0 = 0) :
    dictGetD (Trader.execute_trade ⟨B, f, b⟩ (some ⟨eid, "buy", k, p⟩)
        Env.ok).trader.current_positions eid 0 = k ∧
    dictGetD (Trader.execute_trade
        (Trader.execute_trade ⟨B, f, b⟩ (some ⟨eid, "buy", k, p⟩)
          Env.ok).trader
        (some ⟨eid, "sell", k, p⟩) Env.ok).trader.current_positions eid 0
      = 0 := by
  have hle : ¬((k : ℚ) * p > B * f) := not_lt.mpr hlim
  have h1 : (Trader.execute_trade ⟨B, f, b⟩ (some ⟨eid, "buy", k, p⟩)
      Env.ok).trader
      = ⟨B, f, dictSet b eid (dictGetD b eid 0 + k)⟩ := by
    rw [execute_noadjust ⟨B, f, b⟩ ⟨eid, "buy", k, p⟩ Env.ok hle]
    rw [tryBlock_ok_buy _ _ _ _ _ _ rfl rfl]
  rw [h1, hflat]
  constructor
  · rw [dictGetD_dictSet_self]
    ring
  · have h2 : (Trader.execute_trade ⟨B, f, dictSet b eid (0 + k)⟩
        (some ⟨eid, "sell", k, p⟩) Env.ok).trader
        = ⟨B, f, dictSet (dictSet b eid (0 + k)) eid
            (dictGetD (dictSet b eid (0 + k)) eid 0 - k)⟩ := by
      rw [execute_noadjust ⟨B, f, dictSet b eid (0 + k)⟩
        ⟨eid, "sell", k, p⟩ Env.ok hle]
      rw [tryBlock_ok_sell _ _ _ _ _ _ rfl rfl]
    rw [h2, dictGetD_dictSet_self, dictGetD_dictSet_self]
    ring

/-- C7 witness: Buy 150 at 1/2 on a flat market (limit 100 allows value
75), then Sell 150 at the same price: +150 then back to 0. -/
theorem C7_witness :
    dictGetD (Trader.execute_trade ⟨1000, 1/10, []⟩
        (some ⟨"M", "buy", 150, 1/2⟩)
        Env.ok).trader.current_positions "M" 0 = 150 ∧
    dictGetD (Trader.execute_trade
        (Trader.execute_trade ⟨1000, 1/10, []⟩
          (some ⟨"M", "buy", 150, 1/2⟩) Env.ok).trader
        (some ⟨"M", "sell", 150, 1/2⟩)
        Env.ok).trader.current_positions "M" 0 = 0 :=
  C7_buy_sell_roundtrip 1000 (1/10) (1/2) 150 "M" []
    (by norm_num) (by norm_num) (by simp [dictGetD, dictGet])

/-! ## Claim theorems: the scheduler loop (main) -/

theorem mainRun_shift (cycles : Nat → Except String Unit) (e : String) :
    ∀ (m fuel i : Nat), m < fuel →
      (∀ j, j < m → cycles (i + j) = .ok ()) →
      cycles (i + m) = .error e →
      mainRun cycles fuel i = ⟨i + m + 1, [e], [e]⟩ := by
  intro m
  induction m with
  | zero =>
      intro fuel i hm hok herr
      match fuel, hm with
      | fuel + 1, _ =>
        simp only [mainRun]
        rw [show i + 0 = i from rfl] at herr
        rw [herr]
  | succ m ih =>
      intro fuel i hm hok herr
      match fuel, hm with
      | fuel + 1, hm =>
        simp only [mainRun]
        have h0 : cycles i = .ok () := by
          have := hok 0 (Nat.succ_pos m)
          simpa using this
        rw [h0]
        have := ih fuel (i + 1) (Nat.lt_of_succ_lt_succ hm)
          (fun j hj => by
            have := hok (j + 1) (Nat.succ_lt_succ hj)
            simpa [Nat.add_assoc, Nat.add_comm 1 j] using this)
          (by
            have : i + 1 + m = i + (m + 1) := by omega
            rw [this]
            exact herr)
        rw [this]
        have heq : i + 1 + m + 1 = i + (m + 1) + 1 := by omega
        rw [heq]

/-- C6: in the scheduler loop, if cycles 0..k-1 succeed and cycle k raises
(e.g. a market-data fetch failure), then — for every fuel bound large
enough to reach cycle k — exactly k+1 cycles are started, the exception is
caught exactly once at the outermost level, logged once, reported once via
the Notifier as an error, and no further cycle runs: the loop terminates. -/
theorem C6_loop_stops_on_error (cycles : Nat → Except String Unit)
    (k fuel : Nat) (e : String)
    (hk : k < fuel)
    (hok : ∀ j, j < k → cycles j = .ok ())
    (herr : cycles k = .error e) :
    mainRun cycles fuel 0 = ⟨k + 1, [e], [e]⟩ := by
  have h := mainRun_shift cycles e k fuel 0 hk
    (fun j hj => by simpa using hok j hj) (by simpa using herr)
  simpa using h

/-- C6 witness: a run whose third cycle raises — three cycles start, one
error is logged and notified, and the result is the same for any larger
fuel bound (no further cycle runs). -/
theorem C6_witness :
    mainRun (fun i => if i = 2 then .error "boom" else .ok ()) 10 0
      = ⟨3, ["boom"], ["boom"]⟩ :=
  C6_loop_stops_on_error (fun i => if i = 2 then .error "boom" else .ok ())
    2 10 "boom" (by norm_num)
    (fun j hj => by interval_cases j <;> rfl) rfl
